import Mathlib

/-
Verification of core components of the Hadron/NAT64 stateful translator:
the session database (mod/session_db.c), incoming-tuple extraction
(mod/determine_incoming_tuple.c), the RFC 6052 address mapping
(include/nat64/mod/rfc6052.h), post-translation fragmentation
(mod/translate_packet.c) and runtime configuration updates.

Modeling conventions of this shallow embedding:
- kernel jiffies and msecs are Nat, with time linear (no wrap-around) and
  HZ = 1000, so msecs_to_jiffies is the identity;
- red-black trees are lists of entries, looked up with predicates that hold
  exactly when the corresponding C comparison function returns zero;
- sk_buffs are records holding the header fields the code reads and writes;
- errno-style results are Int return codes: 0 success, -EINVAL = -22,
  -EEXIST = -17, -ENOENT = -2;
- packet emission (probe packets, ICMP errors) is modeled as explicit
  effect values returned alongside the state change.
-/

set_option maxRecDepth 4096

namespace NAT64

/-- Layer-3 protocol, from enum l3_protocol. -/
inductive L3Proto
  | v4
  | v6
deriving DecidableEq, Repr

/-- Layer-4 protocol, from enum l4_protocol (L4PROTO_NONE/TCP/UDP/ICMP). -/
inductive L4Proto
  | nonep
  | tcp
  | udp
  | icmp
deriving DecidableEq, Repr

/-- Verdict values from mod/types.h (VER_CONTINUE/ACCEPT/DROP/STOLEN). -/
inductive Verdict
  | vContinue
  | vAccept
  | vDrop
  | vStolen
deriving DecidableEq, Repr

/-- An IPv6 address as its sixteen bytes (struct in6_addr's s6_addr). -/
structure In6Addr where
  b0 : Nat
  b1 : Nat
  b2 : Nat
  b3 : Nat
  b4 : Nat
  b5 : Nat
  b6 : Nat
  b7 : Nat
  b8 : Nat
  b9 : Nat
  b10 : Nat
  b11 : Nat
  b12 : Nat
  b13 : Nat
  b14 : Nat
  b15 : Nat
deriving DecidableEq, Repr

/-- An IPv4 address as its four bytes (struct in_addr). -/
structure In4Addr where
  a0 : Nat
  a1 : Nat
  a2 : Nat
  a3 : Nat
deriving DecidableEq, Repr

/-- An IPv6 prefix (struct ipv6_prefix): an address plus a length in bits. -/
structure Ipv6Prefix where
  address : In6Addr
  len : Nat
deriving DecidableEq, Repr

/-- Modelled from the spec: rfc6052.c is not part of the analyzed sources
(only include/nat64/mod/rfc6052.h is), so addr_6to4 is modelled from the
spec's words: it strips "prefix" from "src" per the RFC 6052 prefix-length
table, returning the 32 embedded bits, and fails when the prefix length is
not one of 32, 40, 48, 56, 64, 96. The RFC 6052 layouts place the v4 bytes
at byte offsets 4-7 (/32), 5-7 and 9 (/40), 6-7 and 9-10 (/48), 7 and 9-11
(/56), 9-12 (/64) and 12-15 (/96); byte 8 is the reserved "u" octet. -/
def addr_6to4 (src : In6Addr) (p : Ipv6Prefix) : Option In4Addr :=
  match p.len with
  | 32 => some ⟨src.b4, src.b5, src.b6, src.b7⟩
  | 40 => some ⟨src.b5, src.b6, src.b7, src.b9⟩
  | 48 => some ⟨src.b6, src.b7, src.b9, src.b10⟩
  | 56 => some ⟨src.b7, src.b9, src.b10, src.b11⟩
  | 64 => some ⟨src.b9, src.b10, src.b11, src.b12⟩
  | 96 => some ⟨src.b12, src.b13, src.b14, src.b15⟩
  | _ => none

/-- Modelled from the spec: rfc6052.c is not part of the analyzed sources,
so addr_4to6 is modelled from the spec's words: it inserts the 32 bits of
"src" into "prefix" at the RFC 6052 position for the prefix length, zeroing
the "u" byte and the suffix bytes. -/
def addr_4to6 (src : In4Addr) (p : Ipv6Prefix) : Option In6Addr :=
  let q := p.address
  match p.len with
  | 32 => some ⟨q.b0, q.b1, q.b2, q.b3, src.a0, src.a1, src.a2, src.a3,
      0, 0, 0, 0, 0, 0, 0, 0⟩
  | 40 => some ⟨q.b0, q.b1, q.b2, q.b3, q.b4, src.a0, src.a1, src.a2,
      0, src.a3, 0, 0, 0, 0, 0, 0⟩
  | 48 => some ⟨q.b0, q.b1, q.b2, q.b3, q.b4, q.b5, src.a0, src.a1,
      0, src.a2, src.a3, 0, 0, 0, 0, 0⟩
  | 56 => some ⟨q.b0, q.b1, q.b2, q.b3, q.b4, q.b5, q.b6, src.a0,
      0, src.a1, src.a2, src.a3, 0, 0, 0, 0⟩
  | 64 => some ⟨q.b0, q.b1, q.b2, q.b3, q.b4, q.b5, q.b6, q.b7,
      0, src.a0, src.a1, src.a2, src.a3, 0, 0, 0⟩
  | 96 => some ⟨q.b0, q.b1, q.b2, q.b3, q.b4, q.b5, q.b6, q.b7,
      q.b8, q.b9, q.b10, q.b11, src.a0, src.a1, src.a2, src.a3⟩
  | _ => none

/-- Modelled from the spec: membership of an address in an RFC 6052 prefix
("a lies within p"): the first p.len bits of the address equal the prefix.
All valid prefix lengths are byte multiples, so this compares the leading
p.len / 8 bytes; invalid lengths are rejected. -/
def inPrefix6 (a : In6Addr) (p : Ipv6Prefix) : Bool :=
  let q := p.address
  match p.len with
  | 32 => a.b0 == q.b0 && a.b1 == q.b1 && a.b2 == q.b2 && a.b3 == q.b3
  | 40 => a.b0 == q.b0 && a.b1 == q.b1 && a.b2 == q.b2 && a.b3 == q.b3 &&
      a.b4 == q.b4
  | 48 => a.b0 == q.b0 && a.b1 == q.b1 && a.b2 == q.b2 && a.b3 == q.b3 &&
      a.b4 == q.b4 && a.b5 == q.b5
  | 56 => a.b0 == q.b0 && a.b1 == q.b1 && a.b2 == q.b2 && a.b3 == q.b3 &&
      a.b4 == q.b4 && a.b5 == q.b5 && a.b6 == q.b6
  | 64 => a.b0 == q.b0 && a.b1 == q.b1 && a.b2 == q.b2 && a.b3 == q.b3 &&
      a.b4 == q.b4 && a.b5 == q.b5 && a.b6 == q.b6 && a.b7 == q.b7
  | 96 => a.b0 == q.b0 && a.b1 == q.b1 && a.b2 == q.b2 && a.b3 == q.b3 &&
      a.b4 == q.b4 && a.b5 == q.b5 && a.b6 == q.b6 && a.b7 == q.b7 &&
      a.b8 == q.b8 && a.b9 == q.b9 && a.b10 == q.b10 && a.b11 == q.b11
  | _ => false

/-- Characterization of the addresses on which addr_4to6 inverts addr_6to4:
the "u" byte and every byte that is neither part of the prefix nor part of
the embedded IPv4 address must be zero (addr_4to6 reconstructs them as
zero). For /96 there are no such bytes. -/
def suffixClear (a : In6Addr) (len : Nat) : Bool :=
  match len with
  | 32 => a.b8 == 0 && a.b9 == 0 && a.b10 == 0 && a.b11 == 0 &&
      a.b12 == 0 && a.b13 == 0 && a.b14 == 0 && a.b15 == 0
  | 40 => a.b8 == 0 && a.b10 == 0 && a.b11 == 0 &&
      a.b12 == 0 && a.b13 == 0 && a.b14 == 0 && a.b15 == 0
  | 48 => a.b8 == 0 && a.b11 == 0 &&
      a.b12 == 0 && a.b13 == 0 && a.b14 == 0 && a.b15 == 0
  | 56 => a.b8 == 0 && a.b12 == 0 && a.b13 == 0 && a.b14 == 0 && a.b15 == 0
  | 64 => a.b8 == 0 && a.b13 == 0 && a.b14 == 0 && a.b15 == 0
  | 96 => true
  | _ => false

/-- The all-zero IPv6 address, used to build concrete test vectors. -/
def zero6 : In6Addr := ⟨0, 0, 0, 0, 0, 0, 0, 0, 0, 0, 0, 0, 0, 0, 0, 0⟩

/-- The one-level roundtrip of the two RFC 6052 mappings. -/
def rfc6052_roundtrip (a : In6Addr) (p : Ipv6Prefix) : Option In6Addr :=
  (addr_6to4 a p).bind (fun v4 => addr_4to6 v4 p)

/-- The NAT64 well-known prefix 64:ff9b::, here used with length 32. -/
def wkPrefix32 : Ipv6Prefix := ⟨{ zero6 with b1 := 0x64, b2 := 0xff, b3 := 0x9b }, 32⟩

/-- The NAT64 well-known prefix 64:ff9b::/96 (the default pool6 entry). -/
def wkPrefix96 : Ipv6Prefix := ⟨{ zero6 with b1 := 0x64, b2 := 0xff, b3 := 0x9b }, 96⟩

/-- The address 64:ff9b::1, which lies within 64:ff9b::/32 but carries a
suffix bit that the /32 roundtrip cannot preserve. -/
def addr64ff9b1 : In6Addr := { zero6 with b1 := 0x64, b2 := 0xff, b3 := 0x9b, b15 := 1 }

/-- The address 64:ff9b::192.0.2.1, in canonical /96 form. -/
def addr64ff9bC0000201 : In6Addr :=
  { zero6 with b1 := 0x64, b2 := 0xff, b3 := 0x9b, b12 := 192, b13 := 0, b14 := 2, b15 := 1 }

/-- C9, counterexample. The address 64:ff9b::1 lies within the valid /32
prefix 64:ff9b::/32, yet translating it to IPv4 and back loses the set
suffix bit: the roundtrip returns 64:ff9b:: instead. -/
theorem rfc6052_roundtrip_not_id :
    (32 : Nat) ∈ ([32, 40, 48, 56, 64, 96] : List Nat) ∧
    inPrefix6 addr64ff9b1 wkPrefix32 = true ∧
    rfc6052_roundtrip addr64ff9b1 wkPrefix32 ≠ some addr64ff9b1 :=
  ⟨by decide, by decide, by decide⟩

/-- C9. Amended roundtrip: for a valid prefix, addr_4to6 inverts addr_6to4
on exactly those addresses in the prefix whose "u" byte and suffix bytes
are zero (for /96, on every address in the prefix). -/
theorem rfc6052_roundtrip_id (a : In6Addr) (p : Ipv6Prefix)
    (hin : inPrefix6 a p = true) (hsuf : suffixClear a p.len = true) :
    rfc6052_roundtrip a p = some a := by
  obtain ⟨q, plen⟩ := p
  cases a
  cases q
  unfold inPrefix6 at hin
  dsimp only at hin hsuf
  split at hin <;>
    simp_all [rfc6052_roundtrip, addr_6to4, addr_4to6, suffixClear,
      Bool.and_eq_true, beq_iff_eq, In6Addr.mk.injEq]

/-- C9, witness: the /96 well-known prefix 64:ff9b::/96 with the embedded
address 192.0.2.1 satisfies the amended roundtrip. -/
theorem rfc6052_roundtrip_id_witness :
    inPrefix6 addr64ff9bC0000201 wkPrefix96 = true ∧
    rfc6052_roundtrip addr64ff9bC0000201 wkPrefix96 = some addr64ff9bC0000201 :=
  ⟨by decide, rfc6052_roundtrip_id _ _ (by decide) (by decide)⟩

/-- An IPv4 transport address (struct ipv4_tuple_address). -/
structure Ipv4TupleAddress where
  address : In4Addr
  l4_id : Nat
deriving DecidableEq, Repr

/-- An IPv6 transport address (struct ipv6_tuple_address). -/
structure Ipv6TupleAddress where
  address : In6Addr
  l4_id : Nat
deriving DecidableEq, Repr

/-- An IPv4 connection pair (struct ipv4_pair): local is the pool-side
transport address, remote the IPv4 peer. -/
structure Ipv4Pair where
  remote : Ipv4TupleAddress
  local4 : Ipv4TupleAddress
deriving DecidableEq, Repr

/-- An IPv6 connection pair (struct ipv6_pair): remote is the IPv6 peer,
local the pool6-embedded representation of the IPv4 side. -/
structure Ipv6Pair where
  remote : Ipv6TupleAddress
  local6 : Ipv6TupleAddress
deriving DecidableEq, Repr

/-- TCP session states (enum tcp_states). -/
inductive TcpState
  | CLOSED
  | V4_INIT
  | V6_INIT
  | ESTABLISHED
  | V4_FIN_RCV
  | V6_FIN_RCV
  | V4_FIN_V6_FIN_RCV
  | TRANS
deriving DecidableEq, Repr

/-- A BIB entry (struct bib_entry): the static part of a mapping. -/
structure BibEntry where
  ipv4 : Ipv4TupleAddress
  ipv6 : Ipv6TupleAddress
  l4_proto : L4Proto
deriving DecidableEq, Repr

/-- A session entry (struct session_entry, declared in session.c which is
included by session_db.c). The reference-count and the intrusive tree/list
hooks are implicit in the table model; the parent BIB pointer is an Option
that session_db sets right after a successful insertion. -/
structure SessionEntry where
  ipv6 : Ipv6Pair
  ipv4 : Ipv4Pair
  l4_proto : L4Proto
  state : TcpState
  update_time : Nat
  bib : Option BibEntry
deriving DecidableEq, Repr

/-- The TCP probe packet that send_probe_packet() builds: an IPv6/TCP
segment whose fields are set exactly as in session_db.c lines 252-281. -/
structure ProbePacket where
  saddr : In6Addr
  daddr : In6Addr
  source : Nat
  dest : Nat
  seq : Nat
  ack_seq : Nat
  fin : Bool
  syn : Bool
  rst : Bool
  ack : Bool
  window : Nat
  payloadLen : Nat
deriving DecidableEq, Repr

/-- Packets the expiration path can emit. icmpError models
send_icmp_error_message(skb, type, code); session_expire() currently never
emits it (the call for V4_INIT is commented out in the source). -/
inductive SessionEffect
  | probe (p : ProbePacket)
  | icmpError (icmpType : Nat) (code : Nat)
deriving DecidableEq, Repr

/-- Embedding of send_probe_packet(): the probe goes from the session's
IPv6-local transport address to its IPv6-remote one, with seq = 0,
ack_seq = 0, only the ACK flag set, window 8192 and no payload
(payload_len of the IPv6 header covers exactly the 20-byte TCP header). -/
def send_probe_packet (s : SessionEntry) : ProbePacket :=
  { saddr := s.ipv6.local6.address
    daddr := s.ipv6.remote.address
    source := s.ipv6.local6.l4_id
    dest := s.ipv6.remote.l4_id
    seq := 0
    ack_seq := 0
    fin := false
    syn := false
    rst := false
    ack := true
    window := 8192
    payloadLen := 0 }

/-- Result of session_expire(): whether to destroy the entry, the possibly
updated entry, the packets emitted, and whether the entry was moved to the
tail of the tcp_trans expirer FIFO. -/
structure ExpireResult where
  destroy : Bool
  session : SessionEntry
  effects : List SessionEffect
  requeueTcpTrans : Bool
deriving DecidableEq, Repr

/-- Embedding of session_expire() (session_db.c lines 388-440). UDP and
ICMP sessions are always destroyed. For TCP: V4_INIT sets the state to
CLOSED and destroys the entry, emitting nothing (the
send_icmp_error_message call there is commented out, marked TODO Issue 58);
ESTABLISHED emits a probe packet, moves to TRANS with a refreshed
update_time, re-queues on the tcp_trans FIFO and keeps the entry; the other
live states set CLOSED and destroy; an already-CLOSED entry is destroyed
defensively, as are NONE-protocol entries. -/
def session_expire (now : Nat) (s : SessionEntry) : ExpireResult :=
  match s.l4_proto with
  | .udp => ⟨true, s, [], false⟩
  | .icmp => ⟨true, s, [], false⟩
  | .tcp =>
    match s.state with
    | .V4_INIT => ⟨true, { s with state := .CLOSED }, [], false⟩
    | .ESTABLISHED =>
        ⟨false, { s with state := .TRANS, update_time := now },
          [.probe (send_probe_packet s)], true⟩
    | .V6_INIT => ⟨true, { s with state := .CLOSED }, [], false⟩
    | .V4_FIN_RCV => ⟨true, { s with state := .CLOSED }, [], false⟩
    | .V6_FIN_RCV => ⟨true, { s with state := .CLOSED }, [], false⟩
    | .V4_FIN_V6_FIN_RCV => ⟨true, { s with state := .CLOSED }, [], false⟩
    | .TRANS => ⟨true, { s with state := .CLOSED }, [], false⟩
    | .CLOSED => ⟨true, s, [], false⟩
  | .nonep => ⟨true, s, [], false⟩

/-- MIN_TIMER_SLEEP from comm/constants.h: timers never sleep fewer than
255 jiffies. -/
def MIN_TIMER_SLEEP : Nat := 255

/-- Embedding of schedule_timer(): the requested wakeup is floored at
jiffies + MIN_TIMER_SLEEP. -/
def schedule_timer (now next_time : Nat) : Nat :=
  if next_time < now + MIN_TIMER_SLEEP then now + MIN_TIMER_SLEEP else next_time

/-- Result of one cleaner_timer() firing over one expirer FIFO: the
sessions removed from the table, the sessions kept but re-queued (moved to
the tcp_trans FIFO by session_expire), the tail of the FIFO that was not
walked, and the time the timer was rescheduled for, if any. -/
structure CleanerResult where
  destroyed : List SessionEntry
  requeued : List SessionEntry
  remaining : List SessionEntry
  rescheduleAt : Option Nat
deriving DecidableEq, Repr

/-- Embedding of cleaner_timer() (session_db.c lines 447-483): walk the
FIFO from the head; the first entry with now strictly before update_time +
timeout stops the walk and reschedules the timer for its deadline (through
schedule_timer); every earlier entry is handed to session_expire and then
either removed or kept-but-requeued. -/
def cleaner_timer (now timeout : Nat) : List SessionEntry → CleanerResult
  | [] => ⟨[], [], [], none⟩
  | s :: rest =>
    if now < s.update_time + timeout then
      ⟨[], [], s :: rest, some (schedule_timer now (s.update_time + timeout))⟩
    else
      let r := session_expire now s
      let res := cleaner_timer now timeout rest
      if r.destroy then
        { res with destroyed := r.session :: res.destroyed }
      else
        { res with requeued := r.session :: res.requeued }

/-- A concrete TCP session in state V4_INIT, as left by a stored inbound
SYN: v6 pair 64:ff9b-embedded, v4 pair on the pool address. -/
def v4InitSession : SessionEntry :=
  { ipv6 := ⟨⟨addr64ff9b1, 1500⟩, ⟨addr64ff9bC0000201, 80⟩⟩
    ipv4 := ⟨⟨⟨198, 51, 100, 5⟩, 1500⟩, ⟨⟨192, 168, 2, 1⟩, 80⟩⟩
    l4_proto := .tcp
    state := .V4_INIT
    update_time := 1000
    bib := none }

/-- C1. Expiry of a TCP session in state V4_INIT: the code does set the
state to CLOSED and destroy the entry, but it emits no packet at all — in
particular no ICMP Destination Unreachable error — because the
send_icmp_error_message call in session_expire() is commented out
(TODO, Issue 58). -/
theorem v4_init_expiry_emits_no_icmp :
    session_expire 7000 v4InitSession =
      ⟨true, { v4InitSession with state := .CLOSED }, [], false⟩ ∧
    ∀ t c, SessionEffect.icmpError t c ∉ (session_expire 7000 v4InitSession).effects := by
  exact ⟨rfl, by intro t c h; simp [session_expire, v4InitSession] at h⟩

/-- C5. Expiry of an ESTABLISHED TCP session keeps the entry: the state
becomes TRANS, update_time is refreshed to now, the entry is re-queued on
the tcp_trans expirer FIFO, and the only emitted packet is a probe — a
zero-payload TCP segment with ACK set (all other flags clear), seq = 0,
ack_seq = 0, window 8192, from the session's v6-local transport address to
its v6-remote transport address. -/
theorem established_expiry_probes_and_keeps (now : Nat) (s : SessionEntry)
    (hp : s.l4_proto = .tcp) (hs : s.state = .ESTABLISHED) :
    session_expire now s =
      ⟨false, { s with state := .TRANS, update_time := now },
        [.probe
          { saddr := s.ipv6.local6.address
            daddr := s.ipv6.remote.address
            source := s.ipv6.local6.l4_id
            dest := s.ipv6.remote.l4_id
            seq := 0
            ack_seq := 0
            fin := false
            syn := false
            rst := false
            ack := true
            window := 8192
            payloadLen := 0 }], true⟩ := by
  simp [session_expire, hp, hs, send_probe_packet]

/-- A concrete ESTABLISHED TCP session used to witness C5. -/
def establishedSession : SessionEntry :=
  { v4InitSession with state := .ESTABLISHED, update_time := 2000 }

/-- C5, witness: the ESTABLISHED expiry theorem applied to a concrete
session. -/
theorem established_expiry_probes_and_keeps_witness :
    session_expire 9000 establishedSession =
      ⟨false, { establishedSession with state := .TRANS, update_time := 9000 },
        [.probe
          { saddr := establishedSession.ipv6.local6.address
            daddr := establishedSession.ipv6.remote.address
            source := establishedSession.ipv6.local6.l4_id
            dest := establishedSession.ipv6.remote.l4_id
            seq := 0
            ack_seq := 0
            fin := false
            syn := false
            rst := false
            ack := true
            window := 8192
            payloadLen := 0 }], true⟩ :=
  established_expiry_probes_and_keeps 9000 establishedSession rfl rfl

/-- Predicate for an entry whose deadline has passed at time now (the
negation of the walk-stopping test in cleaner_timer). -/
def deadlinePassed (now timeout : Nat) (s : SessionEntry) : Bool :=
  decide (s.update_time + timeout ≤ now)

/-- C6. One cleaner_timer() firing processes exactly the longest prefix of
the FIFO whose deadlines have passed: each such entry is destroyed or
re-queued according to session_expire; the walk stops at the first entry
with now < update_time + timeout, which is left at the head of the
remaining FIFO, and the timer is rescheduled for that entry's deadline
floored at now + MIN_TIMER_SLEEP; when the whole FIFO is drained the timer
is not rescheduled. The rescheduled wakeup is never closer than
MIN_TIMER_SLEEP (= 255 > 0) jiffies away. -/
theorem cleaner_timer_walk (now timeout : Nat) (fifo : List SessionEntry) :
    cleaner_timer now timeout fifo =
      { destroyed := (((fifo.takeWhile (deadlinePassed now timeout)).map
            (session_expire now)).filter (·.destroy)).map (·.session)
        requeued := (((fifo.takeWhile (deadlinePassed now timeout)).map
            (session_expire now)).filter (fun r => !r.destroy)).map (·.session)
        remaining := fifo.dropWhile (deadlinePassed now timeout)
        rescheduleAt := (fifo.dropWhile (deadlinePassed now timeout)).head?.map
          (fun s => schedule_timer now (s.update_time + timeout)) } ∧
    ∀ t, (cleaner_timer now timeout fifo).rescheduleAt = some t →
      now + MIN_TIMER_SLEEP ≤ t := by
  constructor
  · induction fifo with
    | nil => rfl
    | cons s rest ih =>
      by_cases h : now < s.update_time + timeout
      · have hd : deadlinePassed now timeout s = false := by
          simp [deadlinePassed]; omega
        simp [cleaner_timer, h, List.takeWhile_cons, List.dropWhile_cons, hd]
      · have hd : deadlinePassed now timeout s = true := by
          simp [deadlinePassed]; omega
        by_cases hdes : (session_expire now s).destroy
        · simp [cleaner_timer, h, List.takeWhile_cons, List.dropWhile_cons, hd, hdes, ih]
        · simp [cleaner_timer, h, List.takeWhile_cons, List.dropWhile_cons, hd, hdes, ih]
  · intro t ht
    induction fifo with
    | nil => simp [cleaner_timer] at ht
    | cons s rest ih =>
      by_cases h : now < s.update_time + timeout
      · simp [cleaner_timer, h] at ht
        rw [← ht]
        unfold schedule_timer
        split <;> omega
      · by_cases hdes : (session_expire now s).destroy <;>
          [skip; skip] <;>
          · simp [cleaner_timer, h, hdes] at ht
            exact ih ht

/-- C6, witness: a concrete two-entry FIFO where the first entry's
deadline has passed (it is destroyed) and the second one's has not (the
timer is rescheduled for its deadline, which is past the floor). -/
theorem cleaner_timer_walk_witness :
    cleaner_timer 1500 300 [v4InitSession, establishedSession] =
      { destroyed := [{ v4InitSession with state := .CLOSED }]
        requeued := []
        remaining := [establishedSession]
        rescheduleAt := some 2300 } ∧
    (1500 + MIN_TIMER_SLEEP ≤ 2300) :=
  ⟨((cleaner_timer_walk 1500 300 [v4InitSession, establishedSession]).1).trans (by decide),
    (cleaner_timer_walk 1500 300 [v4InitSession, establishedSession]).2 2300
      (by decide)⟩

/-- Byte accessor for an IPv6 address (s6_addr indexing). -/
def In6Addr.byteAt (a : In6Addr) (i : Nat) : Nat :=
  match i with
  | 0 => a.b0
  | 1 => a.b1
  | 2 => a.b2
  | 3 => a.b3
  | 4 => a.b4
  | 5 => a.b5
  | 6 => a.b6
  | 7 => a.b7
  | 8 => a.b8
  | 9 => a.b9
  | 10 => a.b10
  | 11 => a.b11
  | 12 => a.b12
  | 13 => a.b13
  | 14 => a.b14
  | 15 => a.b15
  | _ => 0

/-- The kernel's ipv6_prefix_equal(): the first len bits of the two
addresses coincide (bit 0 is the most significant bit of byte 0). -/
def ipv6_prefix_equal (pfxAddr : In6Addr) (addr : In6Addr) (len : Nat) : Bool :=
  (List.range len).all
    (fun i => (pfxAddr.byteAt (i / 8) >>> (7 - i % 8)) &&& 1 ==
      (addr.byteAt (i / 8) >>> (7 - i % 8)) &&& 1)

/-- One session table (struct session_table): the IPv6-indexed tree and
the IPv4-indexed tree, modeled as lists holding the same entries, plus the
entry count. Tree lookups become list lookups with predicates that hold
exactly when the corresponding comparison function returns zero. -/
structure SessionTable where
  tree6 : List SessionEntry
  tree4 : List SessionEntry
  count : Nat
deriving DecidableEq, Repr

/-- A session table with no entries (tables start this way). -/
def emptyTable : SessionTable := ⟨[], [], 0⟩

/-- Embedding of sessiondb_delete_by_bib() for the table of the BIB's
protocol: starting from any tree4 node whose local IPv4 transport address
equals the BIB's (compare_local4 == 0), the code walks left and right
removing every session with that local address — that is, it removes
exactly the sessions matching the predicate, decrements the table count by
the number removed (which it logs), and returns 0. When no session
matches, nothing is removed and it still returns 0. -/
def sessiondb_delete_by_bib (bib : BibEntry) (t : SessionTable) : Int × SessionTable :=
  let pred := fun (s : SessionEntry) => s.ipv4.local4 == bib.ipv4
  (0, { tree6 := t.tree6.filter (fun s => !pred s)
        tree4 := t.tree4.filter (fun s => !pred s)
        count := t.count - (t.tree4.filter pred).length })

/-- Embedding of delete_sessions_by_ipv4(): removes the sessions whose
local IPv4 address is addr (compare_local_addr4 == 0), same walk shape as
sessiondb_delete_by_bib. Returns 0. -/
def delete_sessions_by_ipv4 (addr : In4Addr) (t : SessionTable) : Int × SessionTable :=
  let pred := fun (s : SessionEntry) => s.ipv4.local4.address == addr
  (0, { tree6 := t.tree6.filter (fun s => !pred s)
        tree4 := t.tree4.filter (fun s => !pred s)
        count := t.count - (t.tree4.filter pred).length })

/-- Embedding of delete_sessions_by_prefix6(): removes the sessions
whose local IPv6 address contains the prefix (ipv6_prefix_equal), walking
tree6. Returns 0. -/
def delete_sessions_by_prefix6 (p : Ipv6Prefix) (t : SessionTable) : Int × SessionTable :=
  let pred := fun (s : SessionEntry) => ipv6_prefix_equal p.address s.ipv6.local6.address p.len
  (0, { tree6 := t.tree6.filter (fun s => !pred s)
        tree4 := t.tree4.filter (fun s => !pred s)
        count := t.count - (t.tree6.filter pred).length })

/-- Embedding of flush_aux(): removes every session of the table (walking
tree4 left and right from the root) and returns 0. -/
def flush_aux (t : SessionTable) : Int × SessionTable :=
  (0, { tree6 := [], tree4 := [], count := t.count - t.tree4.length })

/-- The three session tables of the database. -/
structure SessionDb where
  udp : SessionTable
  tcp : SessionTable
  icmp : SessionTable
deriving DecidableEq, Repr

/-- Embedding of sessiondb_delete_by_ipv4(): applies the per-table helper
to the TCP, ICMP and UDP tables and returns 0. -/
def sessiondb_delete_by_ipv4 (addr : In4Addr) (db : SessionDb) : Int × SessionDb :=
  (0, { tcp := (delete_sessions_by_ipv4 addr db.tcp).2
        icmp := (delete_sessions_by_ipv4 addr db.icmp).2
        udp := (delete_sessions_by_ipv4 addr db.udp).2 })

/-- Embedding of sessiondb_delete_by_prefix6(): per-table helper over
the three tables; returns 0. -/
def sessiondb_delete_by_prefix6 (p : Ipv6Prefix) (db : SessionDb) : Int × SessionDb :=
  (0, { tcp := (delete_sessions_by_prefix6 p db.tcp).2
        icmp := (delete_sessions_by_prefix6 p db.icmp).2
        udp := (delete_sessions_by_prefix6 p db.udp).2 })

/-- Embedding of sessiondb_flush(): flush_aux over the three tables;
returns 0. -/
def sessiondb_flush (db : SessionDb) : Int × SessionDb :=
  (0, { udp := (flush_aux db.udp).2
        tcp := (flush_aux db.tcp).2
        icmp := (flush_aux db.icmp).2 })

/-- A concrete BIB entry used in counterexamples and witnesses:
(2001:db8-side v6, 192.168.2.1 port 80, TCP). -/
def cexBib : BibEntry :=
  { ipv4 := ⟨⟨192, 168, 2, 1⟩, 80⟩
    ipv6 := ⟨addr64ff9b1, 1500⟩
    l4_proto := .tcp }

/-- A one-session table whose only session hangs from cexBib (its local
v4 transport address is cexBib.ipv4). -/
def oneSessionTable : SessionTable :=
  { tree6 := [v4InitSession], tree4 := [v4InitSession], count := 1 }

/-- C2, counterexample. Deleting by BIB from a table holding exactly one
matching session deletes that one session (the count drops from 1 to 0),
yet the function returns 0, not 1: the return value is a status code, not
the number of sessions deleted. -/
theorem delete_by_bib_returns_zero_not_count :
    (sessiondb_delete_by_bib cexBib oneSessionTable).1 = 0 ∧
    oneSessionTable.count - ((sessiondb_delete_by_bib cexBib oneSessionTable).2).count = 1 ∧
    (sessiondb_delete_by_bib cexBib oneSessionTable).1 ≠ (1 : Int) := by
  refine ⟨by decide, by decide, by decide⟩

/-- C2. Amended: each bulk-removal operation deletes exactly the matching
sessions, decrementing the table count by the number it deleted (the
number it logs), but each returns 0 on success — a status code — rather
than that number. -/
theorem bulk_removals_delete_matching_and_return_zero
    (bib : BibEntry) (addr : In4Addr) (p : Ipv6Prefix) (t : SessionTable) (db : SessionDb) :
    ((sessiondb_delete_by_bib bib t).1 = 0 ∧
      (∀ s, s ∈ (sessiondb_delete_by_bib bib t).2.tree4 ↔
        s ∈ t.tree4 ∧ ¬ s.ipv4.local4 = bib.ipv4) ∧
      (sessiondb_delete_by_bib bib t).2.count =
        t.count - (t.tree4.filter (fun s => s.ipv4.local4 == bib.ipv4)).length) ∧
    ((sessiondb_delete_by_ipv4 addr db).1 = 0 ∧
      (∀ s, s ∈ (delete_sessions_by_ipv4 addr t).2.tree4 ↔
        s ∈ t.tree4 ∧ ¬ s.ipv4.local4.address = addr) ∧
      (delete_sessions_by_ipv4 addr t).2.count =
        t.count - (t.tree4.filter (fun s => s.ipv4.local4.address == addr)).length) ∧
    ((sessiondb_delete_by_prefix6 p db).1 = 0 ∧
      (∀ s, s ∈ (delete_sessions_by_prefix6 p t).2.tree6 ↔
        s ∈ t.tree6 ∧ ¬ ipv6_prefix_equal p.address s.ipv6.local6.address p.len = true) ∧
      (delete_sessions_by_prefix6 p t).2.count =
        t.count - (t.tree6.filter
          (fun s => ipv6_prefix_equal p.address s.ipv6.local6.address p.len)).length) ∧
    ((sessiondb_flush db).1 = 0 ∧ (flush_aux t).2.tree4 = [] ∧ (flush_aux t).2.tree6 = [] ∧
      (flush_aux t).2.count = t.count - t.tree4.length) := by
  refine ⟨⟨rfl, ?_, rfl⟩, ⟨rfl, ?_, rfl⟩, ⟨rfl, ?_, rfl⟩, rfl, rfl, rfl, rfl⟩ <;>
    intro s <;>
    simp [sessiondb_delete_by_bib, delete_sessions_by_ipv4,
      delete_sessions_by_prefix6, List.mem_filter]

/-- Embedding of sessiondb_add() (session_db.c lines 744-786): reject the
NONE protocol (get_session_table fails with EINVAL); fail with EEXIST when
the full v6 pair collides in tree6; insert into tree6, and if the full v4
pair then collides in tree4, erase the just-inserted tree6 node (rollback)
and fail with EEXIST; otherwise keep both insertions and increment the
count. -/
def sessiondb_add (s : SessionEntry) (t : SessionTable) : Int × SessionTable :=
  if s.l4_proto = .nonep then
    (-22, t)
  else if t.tree6.any (fun x => x.ipv6 == s.ipv6) then
    (-17, t)
  else
    let tree6' := s :: t.tree6
    if t.tree4.any (fun x => x.ipv4 == s.ipv4) then
      (-17, { t with tree6 := tree6'.erase s })
    else
      (0, { tree6 := tree6', tree4 := s :: t.tree4, count := t.count + 1 })

/-- C4. sessiondb_add inserts into both trees atomically: with no key
collision it adds the session to both trees and increments the count; on
any collision — including the case where the v6 insert succeeded and the
v4 insert collided, which the code rolls back — it returns -EEXIST and
leaves the table (both trees and the count) exactly unchanged. -/
theorem sessiondb_add_atomic (s : SessionEntry) (t : SessionTable)
    (hp : s.l4_proto ≠ .nonep) :
    ((t.tree6.any (fun x => x.ipv6 == s.ipv6) = false ∧
        t.tree4.any (fun x => x.ipv4 == s.ipv4) = false →
      sessiondb_add s t = (0, ⟨s :: t.tree6, s :: t.tree4, t.count + 1⟩)) ∧
    (t.tree6.any (fun x => x.ipv6 == s.ipv6) = true ∨
        t.tree4.any (fun x => x.ipv4 == s.ipv4) = true →
      sessiondb_add s t = (-17, t))) := by
  constructor
  · rintro ⟨h6, h4⟩
    simp [sessiondb_add, hp, h6, h4]
  · rintro (h6 | h4)
    · simp [sessiondb_add, hp, h6]
    · by_cases h6 : t.tree6.any (fun x => x.ipv6 == s.ipv6)
      · simp [sessiondb_add, hp, h6]
      · simp [sessiondb_add, hp, h6, h4, List.erase_cons_head]

/-- C4, witness: adding v4InitSession to the empty table succeeds, and
adding it again to the resulting table fails with -EEXIST leaving the
table unchanged. -/
theorem sessiondb_add_atomic_witness :
    sessiondb_add v4InitSession emptyTable =
      (0, ⟨[v4InitSession], [v4InitSession], 1⟩) ∧
    sessiondb_add v4InitSession ⟨[v4InitSession], [v4InitSession], 1⟩ =
      (-17, ⟨[v4InitSession], [v4InitSession], 1⟩) :=
  ⟨((sessiondb_add_atomic v4InitSession emptyTable (by decide)).1 ⟨by decide, by decide⟩).trans
      (by decide),
    ((sessiondb_add_atomic v4InitSession ⟨[v4InitSession], [v4InitSession], 1⟩
        (by decide)).2 (Or.inl (by decide))).trans (by decide)⟩

/-- An IPv6-side incoming tuple (struct tuple with l3_proto = IPV6). -/
structure Tuple6 where
  src : Ipv6TupleAddress
  dst : Ipv6TupleAddress
  l4_proto : L4Proto
deriving DecidableEq, Repr

/-- An IPv4-side incoming tuple (struct tuple with l3_proto = IPV4). -/
structure Tuple4 where
  src : Ipv4TupleAddress
  dst : Ipv4TupleAddress
  l4_proto : L4Proto
deriving DecidableEq, Repr

/-- tuple_to_ipv6_pair(): remote gets the tuple source, local the tuple
destination. -/
def tuple_to_ipv6_pair (tu : Tuple6) : Ipv6Pair :=
  { remote := tu.src, local6 := tu.dst }

/-- tuple_to_ipv4_pair(): remote gets the tuple source, local the tuple
destination. -/
def tuple_to_ipv4_pair (tu : Tuple4) : Ipv4Pair :=
  { remote := tu.src, local4 := tu.dst }

/-- Modelled from the spec: the IPv6 prefix pool is an external
collaborator exposing membership lookup; pool6_get returns the pool prefix
containing the given address, if any. -/
def pool6_get (pool : List Ipv6Prefix) (addr : In6Addr) : Option Ipv6Prefix :=
  pool.find? (fun p => ipv6_prefix_equal p.address addr p.len)

/-- Modelled from the spec: pool6_peek returns the pool's first prefix. -/
def pool6_peek (pool : List Ipv6Prefix) : Option Ipv6Prefix :=
  pool.head?

/-- Modelled from the spec: session.c (included by session_db.c) is not
under the analyzed sources; session_create() allocates a fresh entry
holding the two pairs and the protocol, with no parent BIB assigned yet. -/
def session_create (pair4 : Ipv4Pair) (pair6 : Ipv6Pair) (l4 : L4Proto) : SessionEntry :=
  { ipv6 := pair6
    ipv4 := pair4
    l4_proto := l4
    state := .CLOSED
    update_time := 0
    bib := none }

/-- Embedding of sessiondb_get_or_create_ipv6() (session_db.c lines
867-950): look up the full v6 pair; on a miss, obtain the prefix of the
tuple's destination address from pool6, strip it to get the remote IPv4
address, and build the new session with pair4.local = bib->ipv4,
pair4.remote = (stripped address, tuple dst port — or the BIB's v4 id for
ICMP); insert it in tree6 then tree4 (rolling back the tree6 insert if
tree4 collides), set its parent BIB and bump the count. -/
def sessiondb_get_or_create_ipv6 (pool : List Ipv6Prefix) (tu : Tuple6)
    (bib : BibEntry) (t : SessionTable) : Int × SessionTable × Option SessionEntry :=
  let pair6 := tuple_to_ipv6_pair tu
  if tu.l4_proto = .nonep then
    (-22, t, none)
  else
    match t.tree6.find? (fun x => x.ipv6 == pair6) with
    | some x => (0, t, some x)
    | none =>
      match pool6_get pool tu.dst.address with
      | none => (-2, t, none)
      | some pfx6 =>
        match addr_6to4 tu.dst.address pfx6 with
        | none => (-22, t, none)
        | some ipv4_dst =>
          let pair4 : Ipv4Pair :=
            { local4 := bib.ipv4
              remote := { address := ipv4_dst
                          l4_id := if tu.l4_proto ≠ .icmp then tu.dst.l4_id
                            else bib.ipv4.l4_id } }
          if t.tree4.any (fun x => x.ipv4 == pair4) then
            (-17, t, none)
          else
            let s := { session_create pair4 pair6 tu.l4_proto with bib := some bib }
            (0, { tree6 := s :: t.tree6, tree4 := s :: t.tree4, count := t.count + 1 },
              some s)

/-- Embedding of sessiondb_get_or_create_ipv4() (session_db.c lines
953-1034): look up the full v4 pair; on a miss, peek the pool6 prefix,
embed the tuple's source IPv4 address into it, and build the new session
with pair6.remote = bib->ipv6, pair6.local = (embedded address, tuple src
port — or the BIB's v6 id for ICMP); insert it in tree4 then tree6
(rolling back on collision), set its parent BIB and bump the count. -/
def sessiondb_get_or_create_ipv4 (pool : List Ipv6Prefix) (tu : Tuple4)
    (bib : BibEntry) (t : SessionTable) : Int × SessionTable × Option SessionEntry :=
  let pair4 := tuple_to_ipv4_pair tu
  if tu.l4_proto = .nonep then
    (-22, t, none)
  else
    match t.tree4.find? (fun x => x.ipv4 == pair4) with
    | some x => (0, t, some x)
    | none =>
      match pool6_peek pool with
      | none => (-2, t, none)
      | some pfx6 =>
        match addr_4to6 tu.src.address pfx6 with
        | none => (-22, t, none)
        | some ipv6_src =>
          let pair6 : Ipv6Pair :=
            { remote := bib.ipv6
              local6 := { address := ipv6_src
                          l4_id := if tu.l4_proto ≠ .icmp then tu.src.l4_id
                            else bib.ipv6.l4_id } }
          if t.tree6.any (fun x => x.ipv6 == pair6) then
            (-17, t, none)
          else
            let s := { session_create pair4 pair6 tu.l4_proto with bib := some bib }
            (0, { tree6 := s :: t.tree6, tree4 := s :: t.tree4, count := t.count + 1 },
              some s)

/-- A concrete outbound v6 TCP tuple: from (64:ff9b::1 as stand-in v6
node, port 1500) to (64:ff9b::192.0.2.1, port 80). Its source transport
address equals cexBib's v6 side, as the filtering caller guarantees. -/
def cexTuple6 : Tuple6 :=
  { src := ⟨addr64ff9b1, 1500⟩
    dst := ⟨addr64ff9bC0000201, 80⟩
    l4_proto := .tcp }

/-- The session that sessiondb_get_or_create_ipv6 creates from cexTuple6,
cexBib and the default /96 pool, written out explicitly. -/
def cexCreated : SessionEntry :=
  { ipv6 := ⟨⟨addr64ff9b1, 1500⟩, ⟨addr64ff9bC0000201, 80⟩⟩
    ipv4 := ⟨⟨⟨192, 0, 2, 1⟩, 80⟩, ⟨⟨192, 168, 2, 1⟩, 80⟩⟩
    l4_proto := .tcp
    state := .CLOSED
    update_time := 0
    bib := some cexBib }

/-- C3, counterexample. A session created by get_or_create_v6 from a
well-formed outbound tuple (tuple.src equal to the BIB's v6 transport
address) has its v4-pair local equal to the BIB's v4 address, but its
v6-pair LOCAL is the pool6-embedded peer address 64:ff9b::192.0.2.1:80,
which differs from the BIB's v6 address — it is the v6-pair REMOTE that
equals the BIB's v6 address. -/
theorem created_session_local6_differs_from_bib :
    (sessiondb_get_or_create_ipv6 [wkPrefix96] cexTuple6 cexBib emptyTable).2.2 =
      some cexCreated ∧
    cexCreated.ipv4.local4 = cexBib.ipv4 ∧
    cexCreated.ipv6.local6 ≠ cexBib.ipv6 ∧
    cexCreated.ipv6.remote = cexBib.ipv6 := by
  refine ⟨by decide, by decide, by decide, by decide⟩

/-- C3. Amended: every session created by get_or_create_v6 or
get_or_create_v4 has exactly one parent BIB — the supplied one — and,
whenever the supplied BIB corresponds to the packet tuple in the way the
filtering callers guarantee (BIB v6 = tuple source for v6 ingress, BIB v4
= tuple destination for v4 ingress), the session's v4-pair local equals
the BIB's v4 transport address and its v6-pair REMOTE equals the BIB's v6
transport address. The v6-pair local is the prefix-embedded v4-remote
representation instead. -/
theorem created_sessions_carry_parent_bib :
    (∀ (pool : List Ipv6Prefix) (tu : Tuple6) (bib : BibEntry) (t : SessionTable)
        (s : SessionEntry),
      t.tree6.find? (fun x => x.ipv6 == tuple_to_ipv6_pair tu) = none →
      tu.src = bib.ipv6 →
      (sessiondb_get_or_create_ipv6 pool tu bib t).2.2 = some s →
      s.bib = some bib ∧ s.ipv4.local4 = bib.ipv4 ∧ s.ipv6.remote = bib.ipv6) ∧
    (∀ (pool : List Ipv6Prefix) (tu : Tuple4) (bib : BibEntry) (t : SessionTable)
        (s : SessionEntry),
      t.tree4.find? (fun x => x.ipv4 == tuple_to_ipv4_pair tu) = none →
      tu.dst = bib.ipv4 →
      (sessiondb_get_or_create_ipv4 pool tu bib t).2.2 = some s →
      s.bib = some bib ∧ s.ipv4.local4 = bib.ipv4 ∧ s.ipv6.remote = bib.ipv6) := by
  constructor
  · intro pool tu bib t s hmiss hsrc h
    simp only [sessiondb_get_or_create_ipv6, hmiss] at h
    split at h
    · simp at h
    · split at h
      · simp at h
      · split at h
        · simp at h
        · split at h <;> split at h <;> simp at h <;>
            (subst h;
              exact ⟨rfl, rfl, by simp [session_create, tuple_to_ipv6_pair, hsrc]⟩)
  · intro pool tu bib t s hmiss hdst h
    simp only [sessiondb_get_or_create_ipv4, hmiss] at h
    split at h
    · simp at h
    · split at h
      · simp at h
      · split at h
        · simp at h
        · split at h <;> split at h <;> simp at h <;>
            (subst h;
              exact ⟨rfl, by simp [session_create, tuple_to_ipv4_pair, hdst], rfl⟩)

/-- C3, witness: the amended theorem applied to the concrete creation of
cexCreated out of cexTuple6 and cexBib. -/
theorem created_sessions_carry_parent_bib_witness :
    cexCreated.bib = some cexBib ∧ cexCreated.ipv4.local4 = cexBib.ipv4 ∧
      cexCreated.ipv6.remote = cexBib.ipv6 :=
  created_sessions_carry_parent_bib.1 [wkPrefix96] cexTuple6 cexBib emptyTable
    cexCreated (by decide) (by decide) (by decide)

/-- Timeout constants from comm/constants.h, in seconds. -/
def UDP_MIN : Nat := 2 * 60

/-- Default UDP session lifetime (seconds). -/
def UDP_DEFAULT : Nat := 5 * 60

/-- Established TCP idle timeout (seconds); also the configured minimum. -/
def TCP_EST : Nat := 2 * 60 * 60

/-- Transitory TCP idle timeout (seconds); also the configured minimum. -/
def TCP_TRANS : Nat := 4 * 60

/-- Default ICMP session lifetime (seconds). -/
def ICMP_DEFAULT : Nat := 1 * 60

/-- msecs_to_jiffies under this embedding's HZ = 1000 convention. -/
def msecs_to_jiffies (m : Nat) : Nat := m

/-- The session DB configuration snapshot (struct sessiondb_config):
the four timeouts, in jiffies. -/
structure SessiondbConfig where
  udp : Nat
  icmp : Nat
  tcp_est : Nat
  tcp_trans : Nat
deriving DecidableEq, Repr

/-- Timeout selectors of enum sessiondb_type. -/
inductive SessiondbType
  | UDP_TIMEOUT
  | ICMP_TIMEOUT
  | TCP_EST_TIMEOUT
  | TCP_TRANS_TIMEOUT
deriving DecidableEq, Repr

/-- Embedding of sessiondb_set_config() (session_db.c lines 591-652).
The payload must be exactly 8 bytes and hold a millisecond value of at
most 0xFFFFFFFF; the UDP, TCP-established and TCP-transitory timeouts are
additionally bounded below by UDP_MIN, TCP_EST and TCP_TRANS seconds
respectively, while the ICMP timeout has no lower bound. On failure the
stored configuration is returned unchanged with -EINVAL; on success a
fresh full snapshot with the one field replaced is published (the RCU
pointer swap of the C code). -/
def sessiondb_set_config (ty : SessiondbType) (size : Nat) (value64 : Nat)
    (cfg : SessiondbConfig) : Int × SessiondbConfig :=
  if size ≠ 8 then
    (-22, cfg)
  else if value64 > 0xFFFFFFFF then
    (-22, cfg)
  else
    let v := msecs_to_jiffies value64
    match ty with
    | .UDP_TIMEOUT =>
        if v < msecs_to_jiffies (1000 * UDP_MIN) then (-22, cfg)
        else (0, { cfg with udp := v })
    | .ICMP_TIMEOUT => (0, { cfg with icmp := v })
    | .TCP_EST_TIMEOUT =>
        if v < msecs_to_jiffies (1000 * TCP_EST) then (-22, cfg)
        else (0, { cfg with tcp_est := v })
    | .TCP_TRANS_TIMEOUT =>
        if v < msecs_to_jiffies (1000 * TCP_TRANS) then (-22, cfg)
        else (0, { cfg with tcp_trans := v })

/-- C10. sessiondb_set_config rejects (returning -EINVAL with the stored
snapshot unchanged) any update whose payload size is not 8 bytes, whose
value exceeds 0xFFFFFFFF milliseconds, or whose value is below the
compile-time minimum of its class — 120 s for UDP, 7200 s for
TCP-established, 240 s for TCP-transitory — while the ICMP timeout has no
lower bound; every accepted update returns 0 together with a complete
fresh snapshot equal to the old one except for the single updated
timeout. -/
theorem set_config_validates_and_replaces (ty : SessiondbType) (size v : Nat)
    (cfg : SessiondbConfig) :
    (size ≠ 8 → sessiondb_set_config ty size v cfg = (-22, cfg)) ∧
    (v > 0xFFFFFFFF → sessiondb_set_config ty size v cfg = (-22, cfg)) ∧
    (ty = .UDP_TIMEOUT → v < 1000 * 120 →
      sessiondb_set_config ty size v cfg = (-22, cfg)) ∧
    (ty = .TCP_EST_TIMEOUT → v < 1000 * 7200 →
      sessiondb_set_config ty size v cfg = (-22, cfg)) ∧
    (ty = .TCP_TRANS_TIMEOUT → v < 1000 * 240 →
      sessiondb_set_config ty size v cfg = (-22, cfg)) ∧
    (size = 8 → v ≤ 0xFFFFFFFF → ty = .ICMP_TIMEOUT →
      sessiondb_set_config ty size v cfg = (0, { cfg with icmp := v })) ∧
    (size = 8 → v ≤ 0xFFFFFFFF → ty = .UDP_TIMEOUT → 1000 * 120 ≤ v →
      sessiondb_set_config ty size v cfg = (0, { cfg with udp := v })) ∧
    (size = 8 → v ≤ 0xFFFFFFFF → ty = .TCP_EST_TIMEOUT → 1000 * 7200 ≤ v →
      sessiondb_set_config ty size v cfg = (0, { cfg with tcp_est := v })) ∧
    (size = 8 → v ≤ 0xFFFFFFFF → ty = .TCP_TRANS_TIMEOUT → 1000 * 240 ≤ v →
      sessiondb_set_config ty size v cfg = (0, { cfg with tcp_trans := v })) := by
  refine ⟨?_, ?_, ?_, ?_, ?_, ?_, ?_, ?_, ?_⟩ <;>
    (intros; subst_vars;
      simp only [sessiondb_set_config, msecs_to_jiffies, UDP_MIN, TCP_EST, TCP_TRANS];
      split_ifs <;> first | rfl | (exfalso; omega))

/-- C10, witness: a well-known configuration accepts a 10-minute UDP
timeout (returning a snapshot with only ttl.udp changed) and rejects a
60-second one. -/
theorem set_config_validates_and_replaces_witness :
    sessiondb_set_config .UDP_TIMEOUT 8 600000 ⟨300000, 60000, 7200000, 240000⟩ =
      (0, ⟨600000, 60000, 7200000, 240000⟩) ∧
    sessiondb_set_config .UDP_TIMEOUT 8 60000 ⟨300000, 60000, 7200000, 240000⟩ =
      (-22, ⟨300000, 60000, 7200000, 240000⟩) :=
  ⟨((set_config_validates_and_replaces .UDP_TIMEOUT 8 600000
        ⟨300000, 60000, 7200000, 240000⟩).2.2.2.2.2.2.1 rfl (by decide) rfl
      (by decide)).trans (by decide),
    (set_config_validates_and_replaces .UDP_TIMEOUT 8 60000
        ⟨300000, 60000, 7200000, 240000⟩).2.2.1 rfl (by decide)⟩

/-- Modelled from the spec: types.c is not under the analyzed sources
(types.h only declares these helpers). ICMPv4 informational messages are
the ping pair: Echo Request (8) and Echo Reply (0). -/
def is_icmp4_info (t : Nat) : Bool := t == 8 || t == 0

/-- Modelled from the spec: ICMPv4 error messages — Destination
Unreachable (3), Source Quench (4), Redirect (5), Time Exceeded (11) and
Parameter Problem (12). -/
def is_icmp4_error (t : Nat) : Bool :=
  t == 3 || t == 4 || t == 5 || t == 11 || t == 12

/-- Modelled from the spec: ICMPv6 informational messages are Echo
Request (128) and Echo Reply (129). -/
def is_icmp6_info (t : Nat) : Bool := t == 128 || t == 129

/-- Modelled from the spec: ICMPv6 error messages are the types below
128. -/
def is_icmp6_error (t : Nat) : Bool := t < 128

/-- The fields of the packet carried inside an ICMPv4 error that
ipv4_icmp_err() reads: the inner IPv4 header's addresses and protocol,
and the leading fields of its layer-4 header interpreted as UDP/TCP
ports or as an ICMP header, as the protocol dictates. -/
structure InnerPkt4 where
  saddr : In4Addr
  daddr : In4Addr
  protocol : Nat
  sport : Nat
  dport : Nat
  icmpType : Nat
  icmpId : Nat
deriving DecidableEq, Repr

/-- The fields of the packet carried inside an ICMPv6 error that
ipv6_icmp_err() reads; nexthdr is the last header type the extension
header iterator reaches. -/
structure InnerPkt6 where
  saddr : In6Addr
  daddr : In6Addr
  nexthdr : Nat
  sport : Nat
  dport : Nat
  icmpType : Nat
  icmpId : Nat
deriving DecidableEq, Repr

/-- Embedding of ipv4_icmp_err() (determine_incoming_tuple.c lines
62-110). The tuple's addresses take the inner packet's swapped: src gets
the inner destination, dst the inner source. Then the inner protocol is
dispatched: UDP (17) and TCP (6) swap the inner ports the same way; ICMP
(1) drops if the inner ICMP is itself an error, otherwise uses the echo id
for both l4 ids; any other protocol drops. The updated tuple is returned
alongside the verdict, mirroring the in-place writes. -/
def ipv4_icmp_err (inner : InnerPkt4) (t0 : Tuple4) : Verdict × Tuple4 :=
  let t1 := { t0 with src := { t0.src with address := inner.daddr }
                      dst := { t0.dst with address := inner.saddr } }
  if inner.protocol = 17 then
    (.vContinue, { t1 with src := { t1.src with l4_id := inner.dport }
                           dst := { t1.dst with l4_id := inner.sport }
                           l4_proto := .udp })
  else if inner.protocol = 6 then
    (.vContinue, { t1 with src := { t1.src with l4_id := inner.dport }
                           dst := { t1.dst with l4_id := inner.sport }
                           l4_proto := .tcp })
  else if inner.protocol = 1 then
    if is_icmp4_error inner.icmpType then
      (.vDrop, t1)
    else
      (.vContinue, { t1 with src := { t1.src with l4_id := inner.icmpId }
                             dst := { t1.dst with l4_id := inner.icmpId }
                             l4_proto := .icmp })
  else
    (.vDrop, t1)

/-- Embedding of ipv6_icmp_err() (determine_incoming_tuple.c lines
145-195): same shape as ipv4_icmp_err over the inner IPv6 packet, keyed on
the iterator's final header type (UDP 17, TCP 6, ICMPv6 58). -/
def ipv6_icmp_err (inner : InnerPkt6) (t0 : Tuple6) : Verdict × Tuple6 :=
  let t1 := { t0 with src := { t0.src with address := inner.daddr }
                      dst := { t0.dst with address := inner.saddr } }
  if inner.nexthdr = 17 then
    (.vContinue, { t1 with src := { t1.src with l4_id := inner.dport }
                           dst := { t1.dst with l4_id := inner.sport }
                           l4_proto := .udp })
  else if inner.nexthdr = 6 then
    (.vContinue, { t1 with src := { t1.src with l4_id := inner.dport }
                           dst := { t1.dst with l4_id := inner.sport }
                           l4_proto := .tcp })
  else if inner.nexthdr = 58 then
    if is_icmp6_error inner.icmpType then
      (.vDrop, t1)
    else
      (.vContinue, { t1 with src := { t1.src with l4_id := inner.icmpId }
                             dst := { t1.dst with l4_id := inner.icmpId }
                             l4_proto := .icmp })
  else
    (.vDrop, t1)

/-- C7. For an ICMP error of either family: an inner UDP, TCP or
non-error (informational) ICMP packet yields Continue with the tuple
filled from the inner packet with addresses and layer-4 identifiers
swapped — tuple.src = (inner destination address, inner L4 destination
port / inner ICMP id), tuple.dst = (inner source address, inner L4 source
port / inner ICMP id); an inner packet that is itself an ICMP error, or
whose protocol is none of UDP/TCP/ICMP, yields Drop. -/
theorem icmp_err_extraction_swaps (i4 : InnerPkt4) (t4 : Tuple4)
    (i6 : InnerPkt6) (t6 : Tuple6) :
    (i4.protocol = 17 →
      ipv4_icmp_err i4 t4 =
        (.vContinue, { src := ⟨i4.daddr, i4.dport⟩, dst := ⟨i4.saddr, i4.sport⟩,
                       l4_proto := .udp })) ∧
    (i4.protocol = 6 →
      ipv4_icmp_err i4 t4 =
        (.vContinue, { src := ⟨i4.daddr, i4.dport⟩, dst := ⟨i4.saddr, i4.sport⟩,
                       l4_proto := .tcp })) ∧
    (i4.protocol = 1 → is_icmp4_error i4.icmpType = false →
      ipv4_icmp_err i4 t4 =
        (.vContinue, { src := ⟨i4.daddr, i4.icmpId⟩, dst := ⟨i4.saddr, i4.icmpId⟩,
                       l4_proto := .icmp })) ∧
    (i4.protocol = 1 → is_icmp4_error i4.icmpType = true →
      (ipv4_icmp_err i4 t4).1 = .vDrop) ∧
    (i4.protocol ≠ 17 → i4.protocol ≠ 6 → i4.protocol ≠ 1 →
      (ipv4_icmp_err i4 t4).1 = .vDrop) ∧
    (i6.nexthdr = 17 →
      ipv6_icmp_err i6 t6 =
        (.vContinue, { src := ⟨i6.daddr, i6.dport⟩, dst := ⟨i6.saddr, i6.sport⟩,
                       l4_proto := .udp })) ∧
    (i6.nexthdr = 6 →
      ipv6_icmp_err i6 t6 =
        (.vContinue, { src := ⟨i6.daddr, i6.dport⟩, dst := ⟨i6.saddr, i6.sport⟩,
                       l4_proto := .tcp })) ∧
    (i6.nexthdr = 58 → is_icmp6_error i6.icmpType = false →
      ipv6_icmp_err i6 t6 =
        (.vContinue, { src := ⟨i6.daddr, i6.icmpId⟩, dst := ⟨i6.saddr, i6.icmpId⟩,
                       l4_proto := .icmp })) ∧
    (i6.nexthdr = 58 → is_icmp6_error i6.icmpType = true →
      (ipv6_icmp_err i6 t6).1 = .vDrop) ∧
    (i6.nexthdr ≠ 17 → i6.nexthdr ≠ 6 → i6.nexthdr ≠ 58 →
      (ipv6_icmp_err i6 t6).1 = .vDrop) := by
  refine ⟨?_, ?_, ?_, ?_, ?_, ?_, ?_, ?_, ?_, ?_⟩ <;>
    intros <;>
    simp_all [ipv4_icmp_err, ipv6_icmp_err]

/-- A concrete inner IPv4/UDP packet for the C7 witness: the ICMPv4 error
quotes a datagram from 192.168.2.1:3300 to 192.0.2.1:80. -/
def innerUdp4 : InnerPkt4 :=
  { saddr := ⟨192, 168, 2, 1⟩
    daddr := ⟨192, 0, 2, 1⟩
    protocol := 17
    sport := 3300
    dport := 80
    icmpType := 0
    icmpId := 0 }

/-- A neutral initial v4 tuple (the caller passes an uninitialized tuple
that the function overwrites). -/
def blankTuple4 : Tuple4 :=
  { src := ⟨⟨0, 0, 0, 0⟩, 0⟩, dst := ⟨⟨0, 0, 0, 0⟩, 0⟩, l4_proto := .nonep }

/-- C7, witness: extraction from a concrete inner UDP packet returns
Continue with src = (192.0.2.1, 80) and dst = (192.168.2.1, 3300). -/
theorem icmp_err_extraction_swaps_witness :
    ipv4_icmp_err innerUdp4 blankTuple4 =
      (.vContinue, { src := ⟨⟨192, 0, 2, 1⟩, 80⟩, dst := ⟨⟨192, 168, 2, 1⟩, 3300⟩,
                     l4_proto := .udp }) :=
  ((icmp_err_extraction_swaps innerUdp4 blankTuple4
      ⟨zero6, zero6, 0, 0, 0, 0, 0⟩
      ⟨⟨zero6, 0⟩, ⟨zero6, 0⟩, .nonep⟩).1 rfl).trans (by decide)

/-- Masking with 0xFFF8 (build_ipv6_frag_off_field, and the mask applied
to min_ipv6_mtu in divide()) always yields a multiple of 8. -/
theorem land_fff8_mod_eight (x : Nat) : (x &&& 0xFFF8) % 8 = 0 := by
  have h7 : (x &&& 0xFFF8) &&& 7 = 0 := by
    apply Nat.eq_of_testBit_eq
    intro i
    simp only [Nat.testBit_and, Nat.zero_testBit]
    by_cases h3 : i < 3
    · have hm : Nat.testBit 0xFFF8 i = false := by
        interval_cases i <;> decide
      simp [hm]
    · have h7b : Nat.testBit 7 i = false := by
        have : (7 : Nat) = 2 ^ 3 - 1 := by norm_num
        rw [this, Nat.testBit_two_pow_sub_one]
        simpa using h3
      simp [h7b]
  have hmod := Nat.and_pow_two_sub_one_eq_mod (x &&& 0xFFF8) 3
  norm_num at hmod
  rw [← hmod, h7]

/-- A multiple of 8 below 2^16 is unchanged by the 0xFFF8 mask. -/
theorem land_fff8_of_dvd (x : Nat) (h8 : x % 8 = 0) (hlt : x < 65536) :
    x &&& 0xFFF8 = x := by
  apply Nat.eq_of_testBit_eq
  intro i
  simp only [Nat.testBit_and]
  by_cases h3 : i < 3
  · have hx : x.testBit i = false := by
      have hmod := Nat.testBit_mod_two_pow x 3 i
      rw [show (2 : Nat) ^ 3 = 8 by norm_num, h8, Nat.zero_testBit] at hmod
      simpa [h3] using hmod.symm
    simp [hx]
  · by_cases h16 : i < 16
    · have hm : Nat.testBit 0xFFF8 i = true := by
        interval_cases i <;> decide
      simp [hm]
    · have hx : x.testBit i = false := by
        apply Nat.testBit_lt_two_pow
        calc x < 65536 := hlt
          _ = 2 ^ 16 := by norm_num
          _ ≤ 2 ^ i := Nat.pow_le_pow_right (by norm_num) (by omega)
      simp [hx]

/-- One outgoing IPv6 fragment as divide() builds it: the datagram size,
and the Fragment extension header's (already masked) byte offset, MF bit,
identification and next-header fields. -/
structure Frag6 where
  size : Nat
  offset : Nat
  mf : Bool
  ident : Nat
  nexthdr : Nat
deriving DecidableEq, Repr

/-- The while loop of divide() (translate_packet.c lines 402-449): from
byte position pos (counted from the network header; the loop starts at the
masked MTU m), each iteration carves a piece of at most payloadMax payload
bytes; a non-final piece carries payloadMax & 0xFFF8 bytes and MF = 1, the
final piece carries the tail and the original MF. Each new fragment's
offset is the original offset plus the payload bytes already consumed
(pos - 48), masked by build_ipv6_frag_off_field. Structural fuel stands in
for the C loop; callers pass fuel ≥ L - pos, which the spec lemma shows is
always enough. -/
def divideLoop (m payloadMax origOff : Nat) (origMf : Bool) (ident nexthdr L : Nat) :
    Nat → Nat → List Frag6
  | _, 0 => []
  | pos, fuel + 1 =>
    if pos < L then
      let remaining := L - pos
      let apl := if remaining ≤ payloadMax then remaining else payloadMax &&& 0xFFF8
      { size := 48 + apl
        offset := (origOff + (pos - 48)) &&& 0xFFF8
        mf := if remaining ≤ payloadMax then origMf else true
        ident := ident
        nexthdr := nexthdr } ::
        divideLoop m payloadMax origOff origMf ident nexthdr L (pos + apl) fuel
    else []

/-- Embedding of divide() (translate_packet.c lines 370-456): the MTU is
masked to a multiple of 8; the original fragment's header is rewritten to
size m, its own (masked) offset and MF = 1, and the overweight is copied
into new fragments of at most m bytes (48 header bytes plus payload),
all sharing the original identification and next-header values; finally
the original fragment is truncated to m bytes. L is the datagram's total
length (skb->len). -/
def divide (mtu origOffRaw : Nat) (origMf : Bool) (ident nexthdr L : Nat) : List Frag6 :=
  let m := mtu &&& 0xFFF8
  let payloadMax := (m + 65536 - 48) % 65536
  let origOff := origOffRaw &&& 0xFFF8
  { size := m
    offset := origOff &&& 0xFFF8
    mf := true
    ident := ident
    nexthdr := nexthdr } ::
    divideLoop m payloadMax origOff origMf ident nexthdr L m L

/-- Embedding of the IPv4-ingress arm of translate_fragment()
(translate_packet.c lines 458-516): when the translated IPv6 datagram is
longer than min_ipv6_mtu, a set DF bit in the original IPv4 header drops
the packet and emits an ICMPv4 Fragmentation Needed error carrying
next-hop MTU = min_ipv6_mtu - 20 (the Option Nat component); with DF
clear the datagram is subdivided by divide(); otherwise the translated
fragment is passed through untouched. -/
def translate_fragment4 (mtu : Nat) (df : Bool) (origOffRaw : Nat) (origMf : Bool)
    (ident nexthdr outLen : Nat) : Verdict × List Frag6 × Option Nat :=
  if outLen > mtu then
    if df then
      (.vDrop, [], some (mtu - 20))
    else
      (.vContinue, divide mtu origOffRaw origMf ident nexthdr outLen, none)
  else
    (.vContinue,
      [{ size := outLen, offset := origOffRaw, mf := origMf,
         ident := ident, nexthdr := nexthdr }], none)

/-- Past the end of the datagram, the loop of divide() produces nothing. -/
theorem divideLoop_stop (m payloadMax origOff : Nat) (origMf : Bool)
    (ident nexthdr L : Nat) :
    ∀ fuel pos, ¬ pos < L →
      divideLoop m payloadMax origOff origMf ident nexthdr L pos fuel = [] := by
  intro fuel
  cases fuel with
  | zero => intro pos h; rfl
  | succ n => intro pos h; simp only [divideLoop, if_neg h]

/-- Specification of the loop of divide(): with adequate fuel, the pieces
carved from position pos on are nonempty, all at most m bytes with the
shared identification, next header and 8-aligned offsets; every piece but
the final one has MF set, and the final one carries the original MF. -/
theorem divideLoop_spec (m payloadMax origOff : Nat) (origMf : Bool)
    (ident nexthdr L : Nat)
    (hpm : payloadMax = m - 48) (h48 : 48 < m) (h8 : m % 8 = 0) (hm16 : m < 65536) :
    ∀ fuel pos, L - pos ≤ fuel → pos < L →
      divideLoop m payloadMax origOff origMf ident nexthdr L pos fuel ≠ [] ∧
      (∀ f ∈ divideLoop m payloadMax origOff origMf ident nexthdr L pos fuel,
        f.size ≤ m ∧ f.ident = ident ∧ f.nexthdr = nexthdr ∧ f.offset % 8 = 0) ∧
      (∀ f ∈ (divideLoop m payloadMax origOff origMf ident nexthdr L pos fuel).dropLast,
        f.mf = true) ∧
      (∀ f, (divideLoop m payloadMax origOff origMf ident nexthdr L pos fuel).getLast? =
          some f → f.mf = origMf) := by
  have hpm8 : payloadMax % 8 = 0 := by omega
  have hpm16 : payloadMax < 65536 := by omega
  have hpmmask : payloadMax &&& 0xFFF8 = payloadMax := land_fff8_of_dvd _ hpm8 hpm16
  intro fuel
  induction fuel with
  | zero => intro pos hfuel hpos; omega
  | succ n ih =>
    intro pos hfuel hpos
    simp only [divideLoop, if_pos hpos]
    by_cases hlast : L - pos ≤ payloadMax
    · have hrest : divideLoop m payloadMax origOff origMf ident nexthdr L
          (pos + (L - pos)) n = [] := by
        apply divideLoop_stop
        omega
      simp only [if_pos hlast, hrest]
      refine ⟨by simp, ?_, by simp, ?_⟩
      · intro f hf
        simp only [List.mem_singleton] at hf
        subst hf
        exact ⟨show 48 + (L - pos) ≤ m by omega, rfl, rfl, land_fff8_mod_eight _⟩
      · intro f hf
        simp only [List.getLast?_singleton, Option.some.injEq] at hf
        subst hf
        simp [hlast]
    · have hpm1 : 1 ≤ payloadMax := by omega
      have hpos2 : pos + payloadMax < L := by omega
      have hfuel2 : L - (pos + payloadMax) ≤ n := by omega
      obtain ⟨hne, hall, hdrop, hlastmf⟩ := ih (pos + payloadMax) hfuel2 hpos2
      simp only [if_neg hlast, hpmmask]
      obtain ⟨r, rs, hrs⟩ := List.exists_cons_of_ne_nil hne
      rw [hrs]
      refine ⟨by simp, ?_, ?_, ?_⟩
      · intro f hf
        rcases List.mem_cons.mp hf with hf | hf
        · subst hf
          exact ⟨show 48 + payloadMax ≤ m by omega, rfl, rfl, land_fff8_mod_eight _⟩
        · exact hall f (by rw [hrs]; exact hf)
      · intro f hf
        rw [List.dropLast_cons₂] at hf
        rcases List.mem_cons.mp hf with hf | hf
        · subst hf
          simp [hlast]
        · exact hdrop f (by rw [hrs]; exact hf)
      · intro f hf
        rw [List.getLast?_cons_cons] at hf
        exact hlastmf f (by rw [hrs]; exact hf)

/-- C8. On v4-to-v6 translation of a datagram longer than min_ipv6_mtu:
with DF set the packet is dropped and an ICMPv4 Fragmentation Needed error
with next-hop MTU = min_ipv6_mtu - 20 is emitted; with DF clear the
datagram is divided into at least two v6 fragments, each at most
min_ipv6_mtu bytes long, each carrying a Fragment extension header with
the shared identification and next-header values and an offset that is a
multiple of 8; every fragment except the last has the more-fragments flag
set, and the last carries the original datagram's MF (clear for a whole
datagram). -/
theorem v4_to_v6_fragmentation (mtu origOff : Nat) (origMf : Bool)
    (ident nexthdr outLen : Nat)
    (hm48 : 48 < mtu &&& 0xFFF8) (hmtu16 : mtu < 65536) (hbig : outLen > mtu) :
    (translate_fragment4 mtu true origOff origMf ident nexthdr outLen =
      (.vDrop, [], some (mtu - 20))) ∧
    (translate_fragment4 mtu false origOff origMf ident nexthdr outLen =
      (.vContinue, divide mtu origOff origMf ident nexthdr outLen, none)) ∧
    2 ≤ (divide mtu origOff origMf ident nexthdr outLen).length ∧
    (∀ f ∈ divide mtu origOff origMf ident nexthdr outLen,
      f.size ≤ mtu ∧ f.ident = ident ∧ f.nexthdr = nexthdr ∧ f.offset % 8 = 0) ∧
    (∀ f ∈ (divide mtu origOff origMf ident nexthdr outLen).dropLast, f.mf = true) ∧
    (∀ f, (divide mtu origOff origMf ident nexthdr outLen).getLast? = some f →
      f.mf = origMf) := by
  have hm8 : (mtu &&& 0xFFF8) % 8 = 0 := land_fff8_mod_eight mtu
  have hmle : mtu &&& 0xFFF8 ≤ mtu := Nat.and_le_left
  have hm16 : mtu &&& 0xFFF8 < 65536 := lt_of_le_of_lt hmle hmtu16
  have hposL : mtu &&& 0xFFF8 < outLen := lt_of_le_of_lt hmle hbig
  obtain ⟨hne, hall, hdrop, hlastmf⟩ :=
    divideLoop_spec (mtu &&& 0xFFF8) (((mtu &&& 0xFFF8) + 65536 - 48) % 65536)
      (origOff &&& 0xFFF8) origMf ident nexthdr outLen (by omega) hm48 hm8 hm16
      outLen (mtu &&& 0xFFF8) (by omega) hposL
  refine ⟨by simp [translate_fragment4, hbig], by simp [translate_fragment4, hbig],
    ?_, ?_, ?_, ?_⟩
  · simp only [divide, List.length_cons]
    have := List.length_pos.mpr hne
    omega
  · intro f hf
    simp only [divide] at hf
    rcases List.mem_cons.mp hf with hf | hf
    · subst hf
      exact ⟨hmle, rfl, rfl, land_fff8_mod_eight _⟩
    · obtain ⟨h1, h2, h3, h4⟩ := hall f hf
      exact ⟨le_trans h1 hmle, h2, h3, h4⟩
  · intro f hf
    simp only [divide] at hf
    obtain ⟨r, rs, hrs⟩ := List.exists_cons_of_ne_nil hne
    rw [hrs, List.dropLast_cons₂] at hf
    rcases List.mem_cons.mp hf with hf | hf
    · subst hf; rfl
    · exact hdrop f (by rw [hrs]; exact hf)
  · intro f hf
    simp only [divide] at hf
    obtain ⟨r, rs, hrs⟩ := List.exists_cons_of_ne_nil hne
    rw [hrs, List.getLast?_cons_cons] at hf
    exact hlastmf f (by rw [hrs]; exact hf)

/-- C8, witness: the spec's S6-style scenario — a 1528-byte translated v6
datagram (from a 1500-byte v4 ingress), min_ipv6_mtu = 1280, shared
identification 0x12345678 and UDP payload. With DF it is dropped with a
Fragmentation Needed error carrying MTU 1260; without DF it splits into
fragments of 1280 and 296 bytes at offsets 0 and 1232, the first with MF
set, the second (last) with MF clear. -/
theorem v4_to_v6_fragmentation_witness :
    (translate_fragment4 1280 true 0 false 305419896 17 1528 =
      (.vDrop, [], some 1260)) ∧
    (translate_fragment4 1280 false 0 false 305419896 17 1528 =
      (.vContinue,
        [⟨1280, 0, true, 305419896, 17⟩, ⟨296, 1232, false, 305419896, 17⟩],
        none)) :=
  ⟨(v4_to_v6_fragmentation 1280 0 false 305419896 17 1528
      (by decide) (by decide) (by decide)).1,
    ((v4_to_v6_fragmentation 1280 0 false 305419896 17 1528
        (by decide) (by decide) (by decide)).2.1).trans (by decide)⟩

end NAT64
